import Mathlib

/-!
Shallow embedding of `mne/preprocessing/ssp.py` (SSP projection computation
for ECG/EOG artifacts): the orchestrating pipeline `_compute_exg_proj` and the
two public wrappers `compute_proj_ecg` / `compute_proj_eog`.

External collaborators (event detectors, `Epochs`, `compute_proj_evoked`,
`compute_proj_epochs`, the FIR filters, `pick_types`,
`make_eeg_average_ref_proj`) live outside this module; their outputs are taken
as parameters or modelled symbolically, and every call the pipeline makes to
them is recorded in an operation trace so ordering and argument-wiring
properties can be stated.

Signal data is symbolic: a `Sig` value records which filters were applied to
the initial signal, so "the signal was not mutated" is `Sig` equality and
"which cutoff argument was passed" is visible in the constructor.
-/

namespace SSP

/-- Channel categories as distinguished by `pick_types` calls in the source. -/
inductive ChCat
  | grad
  | mag
  | eeg
  | eog
  | other
deriving DecidableEq, Repr

/-- A channel: a name and a category.  Part of `raw.info`. -/
structure Channel where
  name : String
  cat : ChCat
deriving DecidableEq, Repr

/-- A rejection threshold: the Python dict values are float literals of the
form `m`e-`e` (e.g. `2000e-13`), possibly `np.inf`; modelled exactly as
either a finite value `m * 10 ^ (-e)` kept as the literal's (mantissa,
negated decimal exponent) pair, or infinity. -/
inductive Thresh
  | finite (mant exp : ℕ)
  | inf
deriving DecidableEq, Repr

/-- The four keys of the rejection dict used by `_compute_exg_proj`. -/
inductive Cat
  | grad
  | mag
  | eeg
  | eog
deriving DecidableEq, Repr

/-- The rejection dict `reject`, keyed by {grad, mag, eeg, eog}; a `none`
field is an absent key. -/
structure RejectDict where
  grad : Option Thresh
  mag : Option Thresh
  eeg : Option Thresh
  eog : Option Thresh
deriving DecidableEq, Repr

/-- Dict lookup `reject[c]`. -/
def RejectDict.get (r : RejectDict) : Cat → Option Thresh
  | .grad => r.grad
  | .mag => r.mag
  | .eeg => r.eeg
  | .eog => r.eog

/-- Unconditional key removal (the state change done by a successful
`del reject[c]`; whether the `del` raises is decided by `RejectDict.get`). -/
def RejectDict.del (r : RejectDict) : Cat → RejectDict
  | .grad => { r with grad := none }
  | .mag => { r with mag := none }
  | .eeg => { r with eeg := none }
  | .eog => { r with eog := none }

/-- Symbolic signal data.  `initial id` is the recording's signal as loaded;
each filter application wraps the signal with the exact arguments the source
passes to the filter primitive (picked channel names, cutoff slots as the
`Option` values handed over, filter length, job count). -/
inductive Sig
  | initial (id : ℕ)
  | highPassed (picks : List String) (cutoff : Option ℚ) (fl nj : ℕ) (s : Sig)
  | lowPassed (picks : List String) (cutoff : Option ℚ) (fl nj : ℕ) (s : Sig)
  | bandPassed (picks : List String) (lo hi : Option ℚ) (fl nj : ℕ) (s : Sig)
deriving DecidableEq, Repr

/-- A projection vector, tagged by provenance so list-assembly order is
observable: `orig n` marks a projection already attached to the recording,
`eegAvgRef` the average-EEG-reference projection built by
`make_eeg_average_ref_proj`, `computed n` a projection returned by
`compute_proj_evoked` / `compute_proj_epochs`. -/
inductive Proj
  | orig (n : ℕ)
  | eegAvgRef
  | computed (n : ℕ)
deriving DecidableEq, Repr

/-- A detected artifact event: (sample index, event label). -/
abbrev Event := ℕ × ℕ

/-- The recording (`raw`): preload flag, channel list, `info` bad-channel
names, `info` projection list, and signal data. -/
structure Raw where
  preloaded : Bool
  chs : List Channel
  badsInfo : List String
  projs : List Proj
  data : Sig
deriving DecidableEq, Repr

/-- The MEG selector argument of `pick_types`: `True`, `'grad'`, `'mag'`, or
`False`. -/
inductive MegSel
  | all
  | grad
  | mag
  | no
deriving DecidableEq, Repr

/-- Whether a channel's category matches a `pick_types` request. -/
def catMatches (meg : MegSel) (eeg eog : Bool) : ChCat → Bool
  | .grad => meg = MegSel.all || meg = MegSel.grad
  | .mag => meg = MegSel.all || meg = MegSel.mag
  | .eeg => eeg
  | .eog => eog
  | .other => false

/-- Modelled from the spec: `pick_types` (from `mne.fiff`, not under `src/`)
selects the recording channels of the requested categories, excluding bad
channels and the caller's `exclude` list (spec section 4.1: category counts
exclude bad/excluded channels; section 4.2: picks exclude known bad channels
plus the caller-supplied additional bad list).  Returns the picked channel
names. -/
def pick_types (raw : Raw) (meg : MegSel) (eeg eog : Bool)
    (exclude : List String) : List String :=
  (raw.chs.filter fun c =>
    catMatches meg eeg eog c.cat
      && !(raw.badsInfo.contains c.name) && !(exclude.contains c.name)).map
    Channel.name

/-- Modelled from the spec: `make_eeg_average_ref_proj` (from `mne.fiff`, not
under `src/`) constructs an average-EEG-reference projection from the
recording metadata (spec sections 4.5 and 6). -/
def make_eeg_average_ref_proj (_info : Raw) : Proj :=
  Proj.eegAvgRef

/-- Errors the pipeline can raise: the explicit preload `ValueError`, a
`KeyError` from `del reject[c]` on an absent key, and the `NameError` hit at
the `Epochs` call when `events` was never assigned. -/
inductive Err
  | valueErrorPreload
  | keyError (c : Cat)
  | nameError (v : String)
deriving DecidableEq, Repr

/-- One recorded call / observable action of the pipeline, in execution
order.  Detector and epoch operations record the signal they were handed, so
"reads the filtered/unfiltered recording" is stated over the trace. -/
inductive Op
  | findECGEvents (sig : Sig)
  | findEOGEvents (sig : Sig)
  | constructValueError
  | delReject (c : Cat)
  | highPassFilter (cutoff : Option ℚ)
  | lowPassFilter (cutoff : Option ℚ)
  | bandPassFilter (lo hi : Option ℚ)
  | mkEpochs (sig : Sig) (reject : RejectDict)
  | projEvoked
  | projEpochs
deriving DecidableEq, Repr

/-- Category count used by the pruning block (lines 115-122): the length of
the corresponding `pick_types` selection with the exact keyword arguments of
the source. -/
def catCount (raw : Raw) : Cat → ℕ
  | .grad => (pick_types raw .grad false false []).length
  | .mag => (pick_types raw .mag false false []).length
  | .eeg => (pick_types raw .no true false []).length
  | .eog => (pick_types raw .no false true []).length

/-- One guarded deletion of the pruning block: if the recording has no
channels of category `c`, run `del reject[c]`, which raises `KeyError` when
the key is already absent.  The state is (dict, deletions performed so far,
first `KeyError` category if one occurred); once an error occurred the
remaining statements do not run. -/
def pruneStep (raw : Raw) (c : Cat) (st : RejectDict × List Op × Option Cat) :
    RejectDict × List Op × Option Cat :=
  match st.2.2 with
  | some _ => st
  | none =>
    if catCount raw c = 0 then
      match st.1.get c with
      | none => (st.1, st.2.1, some c)
      | some _ => (st.1.del c, st.2.1 ++ [Op.delReject c], none)
    else st

/-- The pruning block (lines 115-122): the four guarded `del reject[...]`
statements, in source order grad, mag, eeg, eog. -/
def pruneReject (raw : Raw) (reject : RejectDict) :
    RejectDict × List Op × Option Cat :=
  pruneStep raw .eog (pruneStep raw .eeg (pruneStep raw .mag
    (pruneStep raw .grad (reject, [], none))))

/-- The channel picks of line 124: MEG, EEG and EOG channels, excluding the
recording's bad channels together with the caller-supplied extra bads. -/
def pipelinePicks (raw : Raw) (bads : List String) : List String :=
  pick_types raw .all true true (raw.badsInfo ++ bads)

/-- The filtering block (lines 126-131), three sequential `if` statements:
high-pass with cutoff `h_freq` when only `h_freq` is set; low-pass when only
`l_freq` is set — the source passes `h_freq` (which is `None` in this branch)
as the cutoff, and that argument wiring is preserved verbatim; band-pass when
both are set.  Returns the resulting signal and the filter calls made. -/
def channelFilterStage (picks : List String) (l_freq h_freq : Option ℚ)
    (filter_length n_jobs : ℕ) (s : Sig) : Sig × List Op :=
  let step1 :=
    if l_freq.isNone && h_freq.isSome then
      (Sig.highPassed picks h_freq filter_length n_jobs s,
        [Op.highPassFilter h_freq])
    else (s, ([] : List Op))
  let step2 :=
    if l_freq.isSome && h_freq.isNone then
      (Sig.lowPassed picks h_freq filter_length n_jobs step1.1,
        step1.2 ++ [Op.lowPassFilter h_freq])
    else step1
  if l_freq.isSome && h_freq.isSome then
    (Sig.bandPassed picks l_freq h_freq filter_length n_jobs step2.1,
      step2.2 ++ [Op.bandPassFilter l_freq h_freq])
  else step2

deriving instance DecidableEq for Except

/-- Result of one pipeline invocation: final recording state, final state of
the rejection dict object (which the caller passed by reference and the
pipeline mutates in place), the operation trace, and either the returned
`(projs, events)` pair or the error raised. -/
structure ExgResult where
  raw : Raw
  reject : RejectDict
  trace : List Op
  ret : Except Err (List Proj × List Event)
deriving DecidableEq, Repr

/-- `_compute_exg_proj` (lines 16-147), translated statement by statement.

External collaborator outputs are parameters: `ecg_events` / `eog_events`
stand for what `find_ecg_events` / `find_eog_events` return, `ev_projs` for
what `compute_proj_evoked` / `compute_proj_epochs` return.

Aliasing: when `no_proj` is false, the local `projs` list is the very object
`raw.info['projs']` (line 95), so the later `append` (line 101) and `extend`
(line 143) mutate the recording's attached projection list; the embedding
mirrors this by writing the grown list back into `raw.projs` exactly when
`no_proj` is false.

The invalid-mode branch (line 110) constructs a `ValueError` but does not
raise it, so `events` stays unassigned and execution continues; the
unassigned `events` is only hit at the `Epochs` call (line 133), which raises
`NameError` — after pruning and filtering have already run. -/
def _compute_exg_proj (mode : String) (raw : Raw) (tmin tmax : ℚ)
    (n_grad n_mag n_eeg : ℕ) (l_freq h_freq : Option ℚ)
    (average : Bool) (filter_length n_jobs : ℕ) (ch_name : Option String)
    (reject : RejectDict) (bads : List String) (avg_ref no_proj : Bool)
    (event_id : ℕ) (ecg_events eog_events : List Event)
    (ev_projs : List Proj) : ExgResult :=
  if !raw.preloaded then
    { raw := raw, reject := reject, trace := [],
      ret := Except.error Err.valueErrorPreload }
  else
    let projs0 : List Proj := if no_proj then [] else raw.projs
    let projs1 : List Proj :=
      if avg_ref then projs0 ++ [make_eeg_average_ref_proj raw] else projs0
    let raw1 : Raw := if no_proj then raw else { raw with projs := projs1 }
    let dispatch : Option (List Event) × List Op :=
      if mode = "ECG" then (some ecg_events, [Op.findECGEvents raw1.data])
      else if mode = "EOG" then (some eog_events, [Op.findEOGEvents raw1.data])
      else (none, [Op.constructValueError])
    let pruned := pruneReject raw1 reject
    match pruned.2.2 with
    | some c =>
      { raw := raw1, reject := pruned.1,
        trace := dispatch.2 ++ pruned.2.1,
        ret := Except.error (Err.keyError c) }
    | none =>
      let picks := pipelinePicks raw1 bads
      let filtered :=
        channelFilterStage picks l_freq h_freq filter_length n_jobs raw1.data
      let raw2 : Raw := { raw1 with data := filtered.1 }
      match dispatch.1 with
      | none =>
        { raw := raw2, reject := pruned.1,
          trace := dispatch.2 ++ pruned.2.1 ++ filtered.2,
          ret := Except.error (Err.nameError "events") }
      | some events =>
        let epochOps := [Op.mkEpochs raw2.data pruned.1]
        let reduceOps := if average then [Op.projEvoked] else [Op.projEpochs]
        let projsF := projs1 ++ ev_projs
        let rawF : Raw := if no_proj then raw2 else { raw2 with projs := projsF }
        { raw := rawF, reject := pruned.1,
          trace := dispatch.2 ++ pruned.2.1 ++ filtered.2 ++ epochOps ++ reduceOps,
          ret := Except.ok (projsF, events) }

/-- Default `reject` of `compute_proj_ecg` (lines 153-154):
`dict(grad=2000e-13, mag=3000e-15, eeg=50e-6, eog=250e-6)`. -/
def ecg_reject_default : RejectDict :=
  { grad := some (Thresh.finite 2000 13),
    mag := some (Thresh.finite 3000 15),
    eeg := some (Thresh.finite 50 6),
    eog := some (Thresh.finite 250 6) }

/-- Default `reject` of `compute_proj_eog` (lines 234-235):
`dict(grad=2000e-13, mag=3000e-15, eeg=500e-6, eog=np.inf)`. -/
def eog_reject_default : RejectDict :=
  { grad := some (Thresh.finite 2000 13),
    mag := some (Thresh.finite 3000 15),
    eeg := some (Thresh.finite 500 6),
    eog := some Thresh.inf }

/-- `compute_proj_ecg` (lines 150-228): fixes mode `"ECG"` and forwards all
arguments.  Its Python defaults are `tmin=-0.2, tmax=0.4, n_grad=n_mag=n_eeg=2,
l_freq=1.0, h_freq=35.0, average=False, filter_length=2048, n_jobs=1,
ch_name=None, reject=ecg_reject_default, bads=[], avg_ref=False, no_proj=True,
event_id=999`. -/
def compute_proj_ecg (raw : Raw) (tmin tmax : ℚ)
    (n_grad n_mag n_eeg : ℕ) (l_freq h_freq : Option ℚ)
    (average : Bool) (filter_length n_jobs : ℕ) (ch_name : Option String)
    (reject : RejectDict) (bads : List String) (avg_ref no_proj : Bool)
    (event_id : ℕ) (ecg_events : List Event) (ev_projs : List Proj) :
    ExgResult :=
  _compute_exg_proj "ECG" raw tmin tmax n_grad n_mag n_eeg l_freq h_freq
    average filter_length n_jobs ch_name reject bads avg_ref no_proj event_id
    ecg_events [] ev_projs

/-- `compute_proj_eog` (lines 231-309): fixes mode `"EOG"`, passes `None` as
the channel-name hint (line 306), and forwards all other arguments.  Its
Python defaults are `tmin=-0.15, tmax=0.15, n_grad=n_mag=n_eeg=2, l_freq=1.0,
h_freq=35.0, average=False, filter_length=2048, n_jobs=1,
reject=eog_reject_default, bads=[], avg_ref=False, no_proj=True,
event_id=998`. -/
def compute_proj_eog (raw : Raw) (tmin tmax : ℚ)
    (n_grad n_mag n_eeg : ℕ) (l_freq h_freq : Option ℚ)
    (average : Bool) (filter_length n_jobs : ℕ)
    (reject : RejectDict) (bads : List String) (avg_ref no_proj : Bool)
    (event_id : ℕ) (eog_events : List Event) (ev_projs : List Proj) :
    ExgResult :=
  _compute_exg_proj "EOG" raw tmin tmax n_grad n_mag n_eeg l_freq h_freq
    average filter_length n_jobs none reject bads avg_ref no_proj event_id
    [] eog_events ev_projs

/-! ### Observation helpers and concrete fixtures -/

/-- Recognizer for the filter calls among the recorded operations. -/
def Op.isFilterCall : Op → Bool
  | .highPassFilter _ => true
  | .lowPassFilter _ => true
  | .bandPassFilter _ _ => true
  | _ => false

/-- Recognizer for the event-detector calls among the recorded operations. -/
def Op.isDetectCall : Op → Bool
  | .findECGEvents _ => true
  | .findEOGEvents _ => true
  | _ => false

/-- Recognizer for the `del reject[...]` operations. -/
def Op.isDelCall : Op → Bool
  | .delReject _ => true
  | _ => false

/-- The three pipeline stages whose relative order the temporal claims are
about. -/
inductive StageTag
  | detect
  | filterS
  | epochsS
deriving DecidableEq, Repr

/-- The stage an operation belongs to, if any. -/
def tagOf : Op → Option StageTag
  | .findECGEvents _ => some .detect
  | .findEOGEvents _ => some .detect
  | .highPassFilter _ => some .filterS
  | .lowPassFilter _ => some .filterS
  | .bandPassFilter _ _ => some .filterS
  | .mkEpochs _ _ => some .epochsS
  | _ => none

/-- The trace restricted to detector / filter / epoch-construction calls. -/
def stageSeq (t : List Op) : List StageTag :=
  t.filterMap tagOf

/-- Per-invocation formalisation of claim C2: in the operation trace, every
channel-filter call precedes every artifact-event-detector call. -/
def filteringCompletesBeforeDetection (t : List Op) : Prop :=
  ∀ i < t.length, ∀ j < t.length,
    (t.getD i Op.projEvoked).isFilterCall = true →
    (t.getD j Op.projEvoked).isDetectCall = true → i < j

instance (t : List Op) : Decidable (filteringCompletesBeforeDetection t) := by
  unfold filteringCompletesBeforeDetection
  infer_instance

/-- The spec's RejectionProfileResolver contract (section 4.1), as the spec
words it: each category whose recording-channel count is zero has its entry
removed; all other entries are kept unchanged.  Spec-side definition, to be
compared with `pruneReject` from the source. -/
def rejectionProfileResolverSpec (raw : Raw) (reject : RejectDict) : RejectDict :=
  { grad := if catCount raw .grad = 0 then none else reject.grad,
    mag := if catCount raw .mag = 0 then none else reject.mag,
    eeg := if catCount raw .eeg = 0 then none else reject.eeg,
    eog := if catCount raw .eog = 0 then none else reject.eog }

/-- A preloaded recording with channels of all four categories, two
pre-existing projections and fresh signal data. -/
def rawAll : Raw :=
  { preloaded := true,
    chs := [⟨"GRAD1", .grad⟩, ⟨"MAG1", .mag⟩, ⟨"EEG1", .eeg⟩, ⟨"EOG1", .eog⟩],
    badsInfo := [],
    projs := [Proj.orig 0, Proj.orig 1],
    data := Sig.initial 0 }

/-- A preloaded recording with no gradiometer channels. -/
def rawNoGrad : Raw :=
  { preloaded := true,
    chs := [⟨"MAG1", .mag⟩, ⟨"EEG1", .eeg⟩, ⟨"EOG1", .eog⟩],
    badsInfo := [],
    projs := [Proj.orig 0],
    data := Sig.initial 1 }

/-- A recording whose signal is not materialized in memory. -/
def rawNotPreloaded : Raw :=
  { preloaded := false,
    chs := [⟨"MAG1", .mag⟩],
    badsInfo := [],
    projs := [Proj.orig 0],
    data := Sig.initial 2 }

/-- An invocation of the pipeline with the invalid mode string `"foo"` on
`rawAll`, default-like numeric arguments and both filter bounds supplied. -/
def invalidModeRun : ExgResult :=
  _compute_exg_proj "foo" rawAll (-1 / 5) (2 / 5) 2 2 2 (some 1) (some 35)
    false 2048 1 none ecg_reject_default [] false true 999 [(10, 999)] []
    [Proj.computed 0]

/-- An `"ECG"`-mode invocation of the pipeline on `rawAll` with both filter
bounds supplied and default-like arguments. -/
def ecgRunAll : ExgResult :=
  _compute_exg_proj "ECG" rawAll (-1 / 5) (2 / 5) 2 2 2 (some 1) (some 35)
    false 2048 1 none ecg_reject_default [] false true 999 [(10, 999)] []
    [Proj.computed 0]

/-- Two successive default-argument invocations of `compute_proj_ecg`.
Python evaluates the default `reject` dict once, at function definition; the
pruning block deletes keys from that shared object in place, so the second
default-argument call receives the dict as the first call left it.  The
scenario threads the shared dict state (`.reject` of the first result) into
the second call; all other arguments are the wrapper's defaults. -/
def ecgDefaultsTwice (raw1 raw2 : Raw) (ev1 ev2 : List Event)
    (p1 p2 : List Proj) : ExgResult × ExgResult :=
  let r1 := compute_proj_ecg raw1 (-1 / 5) (2 / 5) 2 2 2 (some 1) (some 35)
    false 2048 1 none ecg_reject_default [] false true 999 ev1 p1
  let r2 := compute_proj_ecg raw2 (-1 / 5) (2 / 5) 2 2 2 (some 1) (some 35)
    false 2048 1 none r1.reject [] false true 999 ev2 p2
  (r1, r2)

/-- An `"ECG"`-mode invocation of the pipeline on `rawNoGrad` (a category
really gets pruned there), default-like arguments. -/
def ecgRunNoGrad : ExgResult :=
  _compute_exg_proj "ECG" rawNoGrad (-1 / 5) (2 / 5) 2 2 2 (some 1) (some 35)
    false 2048 1 none ecg_reject_default [] false true 999 [(10, 999)] []
    [Proj.computed 0]

/-- An `"ECG"`-mode invocation on `rawAll` that keeps the recording's existing
projections (`no_proj = false`) and requests the average-EEG-reference
projection (`avg_ref = true`). -/
def ecgRunAllIncl : ExgResult :=
  _compute_exg_proj "ECG" rawAll (-1 / 5) (2 / 5) 2 2 2 (some 1) (some 35)
    false 2048 1 none ecg_reject_default [] true false 999 [(10, 999)] []
    [Proj.computed 0]

/-- A `compute_proj_ecg` invocation on `rawAll` with all arguments at the
wrapper's defaults. -/
def ecgWrapperRun : ExgResult :=
  compute_proj_ecg rawAll (-1 / 5) (2 / 5) 2 2 2 (some 1) (some 35) false 2048
    1 none ecg_reject_default [] false true 999 [(10, 999)] [Proj.computed 0]

end SSP

/-! ### Helper lemmas -/

namespace SSP

/-- Pruning on a dict carrying all four keys never raises `KeyError`. -/
theorem pruneReject_all_keys_err (raw : Raw) (g m e o : Thresh) :
    (pruneReject raw ⟨some g, some m, some e, some o⟩).2.2 = none := by
  by_cases h1 : catCount raw Cat.grad = 0 <;>
  by_cases h2 : catCount raw Cat.mag = 0 <;>
  by_cases h3 : catCount raw Cat.eeg = 0 <;>
  by_cases h4 : catCount raw Cat.eog = 0 <;>
  simp [pruneReject, pruneStep, RejectDict.get, RejectDict.del, h1, h2, h3, h4]

/-- On a dict carrying all four keys, the pruned dict is exactly what the
spec's RejectionProfileResolver contract describes. -/
theorem pruneReject_all_keys_dict (raw : Raw) (g m e o : Thresh) :
    (pruneReject raw ⟨some g, some m, some e, some o⟩).1
      = rejectionProfileResolverSpec raw ⟨some g, some m, some e, some o⟩ := by
  by_cases h1 : catCount raw Cat.grad = 0 <;>
  by_cases h2 : catCount raw Cat.mag = 0 <;>
  by_cases h3 : catCount raw Cat.eeg = 0 <;>
  by_cases h4 : catCount raw Cat.eog = 0 <;>
  simp [pruneReject, pruneStep, RejectDict.get, RejectDict.del,
        rejectionProfileResolverSpec, h1, h2, h3, h4]

/-- Pruning records only `del reject[...]` operations. -/
theorem pruneReject_all_keys_ops (raw : Raw) (g m e o : Thresh) :
    ((pruneReject raw ⟨some g, some m, some e, some o⟩).2.1).all
      Op.isDelCall = true := by
  by_cases h1 : catCount raw Cat.grad = 0 <;>
  by_cases h2 : catCount raw Cat.mag = 0 <;>
  by_cases h3 : catCount raw Cat.eeg = 0 <;>
  by_cases h4 : catCount raw Cat.eog = 0 <;>
  simp [pruneReject, pruneStep, RejectDict.get, RejectDict.del, Op.isDelCall,
        h1, h2, h3, h4]

/-- The channel picks do not depend on the attached projection list. -/
theorem pipelinePicks_projs (raw : Raw) (p : List Proj) (bads : List String) :
    pipelinePicks { raw with projs := p } bads = pipelinePicks raw bads := rfl

/-- Pruning does not depend on the attached projection list. -/
theorem pruneReject_projs (raw : Raw) (p : List Proj) (r : RejectDict) :
    pruneReject { raw with projs := p } r = pruneReject raw r := rfl

/-- Full characterization of a pipeline run under the preconditions that make
it succeed: recording preloaded, mode one of the two valid strings, rejection
dict carrying all four keys.  Gives the final recording state (filtered data;
projections grown in place exactly when `no_proj` is false), the final
rejection-dict state, the operation trace in execution order, and the
returned `(projections, events)` pair. -/
theorem run_ok_char (mode : String) (raw : Raw) (tmin tmax : ℚ)
    (n_grad n_mag n_eeg : ℕ) (l_freq h_freq : Option ℚ) (average : Bool)
    (filter_length n_jobs : ℕ) (ch_name : Option String) (g m e o : Thresh)
    (bads : List String) (avg_ref no_proj : Bool) (event_id : ℕ)
    (ecg_events eog_events : List Event) (ev_projs : List Proj)
    (hpre : raw.preloaded = true) (hmode : mode = "ECG" ∨ mode = "EOG") :
    _compute_exg_proj mode raw tmin tmax n_grad n_mag n_eeg l_freq h_freq
      average filter_length n_jobs ch_name ⟨some g, some m, some e, some o⟩
      bads avg_ref no_proj event_id ecg_events eog_events ev_projs
    = { raw := { raw with
          data := (channelFilterStage (pipelinePicks raw bads) l_freq h_freq
            filter_length n_jobs raw.data).1,
          projs := if no_proj then raw.projs
            else (if avg_ref then raw.projs ++ [make_eeg_average_ref_proj raw]
                  else raw.projs) ++ ev_projs },
        reject := (pruneReject raw ⟨some g, some m, some e, some o⟩).1,
        trace := (if mode = "ECG" then [Op.findECGEvents raw.data]
            else [Op.findEOGEvents raw.data])
          ++ (pruneReject raw ⟨some g, some m, some e, some o⟩).2.1
          ++ (channelFilterStage (pipelinePicks raw bads) l_freq h_freq
               filter_length n_jobs raw.data).2
          ++ [Op.mkEpochs (channelFilterStage (pipelinePicks raw bads) l_freq
               h_freq filter_length n_jobs raw.data).1
               (pruneReject raw ⟨some g, some m, some e, some o⟩).1]
          ++ [if average then Op.projEvoked else Op.projEpochs],
        ret := Except.ok
          ((if no_proj then ([] : List Proj) else raw.projs)
            ++ (if avg_ref then [make_eeg_average_ref_proj raw] else [])
            ++ ev_projs,
           if mode = "ECG" then ecg_events else eog_events) } := by
  rcases hmode with hm | hm <;> subst hm <;>
    cases no_proj <;> cases avg_ref <;> cases average <;>
    (simp [_compute_exg_proj, hpre, pruneReject_projs, pipelinePicks_projs,
      pruneReject_all_keys_err, List.append_assoc]
     try (repeat' apply And.intro) <;> rfl)

/-- A list of `del` operations contributes nothing to the stage sequence. -/
theorem stageSeq_of_del (l : List Op) (h : l.all Op.isDelCall = true) :
    stageSeq l = [] := by
  induction l with
  | nil => rfl
  | cons x xs ih =>
    rw [List.all_cons, Bool.and_eq_true] at h
    cases x <;>
      first
      | (simpa [stageSeq, List.filterMap_cons, tagOf] using ih h.2)
      | (simp [Op.isDelCall] at h)

/-- The filter stage contributes at most one filter tag to the stage
sequence. -/
theorem filterStage_stageSeq (p : List String) (fl nj : ℕ) (s : Sig)
    (l h : Option ℚ) :
    ∃ k, k ≤ 1 ∧ stageSeq (channelFilterStage p l h fl nj s).2
      = List.replicate k StageTag.filterS := by
  cases l <;> cases h
  · exact ⟨0, by norm_num, rfl⟩
  · exact ⟨1, by norm_num, rfl⟩
  · exact ⟨1, by norm_num, rfl⟩
  · exact ⟨1, by norm_num, rfl⟩

end SSP

/-! ### Claim theorems -/

namespace SSP

/-- Claim C1 (code bug evidence): invoking the pipeline with the invalid mode
`"foo"` on a preloaded recording does NOT raise an invalid-argument error —
the `ValueError` of line 110 is constructed but never raised (recorded as
`Op.constructValueError`) — and the recording's signal IS mutated (the
band-pass filter runs) before the run finally dies with a `NameError` on the
never-assigned `events` variable at the `Epochs` call.  This refutes the
claim's statement about the code while exhibiting that the intended raise is
missing. -/
theorem C1_invalid_mode_no_error_and_mutation :
    invalidModeRun.ret = Except.error (Err.nameError "events")
    ∧ Op.constructValueError ∈ invalidModeRun.trace
    ∧ Op.bandPassFilter (some 1) (some 35) ∈ invalidModeRun.trace
    ∧ invalidModeRun.raw.data ≠ rawAll.data := by decide

/-- Claim C2 counterexample: in the concrete `"ECG"` run `ecgRunAll`, it is
false that the channel-filtering stage completes before the artifact-event
detector is invoked; moreover the detector call in the trace carries the
unfiltered entry signal `Sig.initial 0`, while the recording's final signal
is filtered. -/
theorem C2_filtering_before_detection_refuted :
    ¬ filteringCompletesBeforeDetection ecgRunAll.trace
    ∧ Op.findECGEvents (Sig.initial 0) ∈ ecgRunAll.trace
    ∧ ecgRunAll.raw.data ≠ Sig.initial 0 := by decide

/-- Claim C2 (amended): for every pipeline invocation with a preloaded
recording, a valid mode, and a rejection dict carrying all four keys, the
artifact-event detector is invoked BEFORE the channel-filtering stage (stage
sequence detect, then at most one filter call, then epoch construction), the
detector reads the recording's entry (unfiltered) signal, and epoch
extraction — not event detection — reads the filtered recording together
with the pruned rejection dict. -/
theorem C2_detection_precedes_filtering (mode : String) (raw : Raw)
    (tmin tmax : ℚ) (n_grad n_mag n_eeg : ℕ) (l_freq h_freq : Option ℚ)
    (average : Bool) (filter_length n_jobs : ℕ) (ch_name : Option String)
    (g m e o : Thresh) (bads : List String) (avg_ref no_proj : Bool)
    (event_id : ℕ) (ecg_events eog_events : List Event) (ev_projs : List Proj)
    (hpre : raw.preloaded = true) (hmode : mode = "ECG" ∨ mode = "EOG") :
    (∃ k, k ≤ 1 ∧
      stageSeq (_compute_exg_proj mode raw tmin tmax n_grad n_mag n_eeg l_freq
        h_freq average filter_length n_jobs ch_name
        ⟨some g, some m, some e, some o⟩ bads avg_ref no_proj event_id
        ecg_events eog_events ev_projs).trace
      = StageTag.detect :: (List.replicate k StageTag.filterS ++ [StageTag.epochsS]))
    ∧ (mode = "ECG" →
        Op.findECGEvents raw.data ∈ (_compute_exg_proj mode raw tmin tmax
          n_grad n_mag n_eeg l_freq h_freq average filter_length n_jobs ch_name
          ⟨some g, some m, some e, some o⟩ bads avg_ref no_proj event_id
          ecg_events eog_events ev_projs).trace)
    ∧ (mode = "EOG" →
        Op.findEOGEvents raw.data ∈ (_compute_exg_proj mode raw tmin tmax
          n_grad n_mag n_eeg l_freq h_freq average filter_length n_jobs ch_name
          ⟨some g, some m, some e, some o⟩ bads avg_ref no_proj event_id
          ecg_events eog_events ev_projs).trace)
    ∧ Op.mkEpochs (channelFilterStage (pipelinePicks raw bads) l_freq h_freq
        filter_length n_jobs raw.data).1
        (pruneReject raw ⟨some g, some m, some e, some o⟩).1
      ∈ (_compute_exg_proj mode raw tmin tmax n_grad n_mag n_eeg l_freq h_freq
          average filter_length n_jobs ch_name ⟨some g, some m, some e, some o⟩
          bads avg_ref no_proj event_id ecg_events eog_events ev_projs).trace := by
  rw [run_ok_char mode raw tmin tmax n_grad n_mag n_eeg l_freq h_freq average
    filter_length n_jobs ch_name g m e o bads avg_ref no_proj event_id
    ecg_events eog_events ev_projs hpre hmode]
  obtain ⟨k, hk, hrep⟩ := filterStage_stageSeq (pipelinePicks raw bads)
    filter_length n_jobs raw.data l_freq h_freq
  refine ⟨⟨k, hk, ?_⟩, fun hm => ?_, fun hm => ?_, ?_⟩
  · have hdel := stageSeq_of_del _ (pruneReject_all_keys_ops raw g m e o)
    simp only [stageSeq] at hdel hrep
    rcases hmode with hm | hm <;> subst hm <;> cases average <;>
      simp [stageSeq, List.filterMap_cons, List.filterMap_append, tagOf, hdel,
        hrep]
  · subst hm; simp
  · subst hm; simp
  · simp

/-- Claim C2 witness: the amended theorem instantiated on the concrete run
`ecgRunAll`. -/
theorem C2_detection_precedes_filtering_witness :
    rawAll.preloaded = true
    ∧ (("ECG" : String) = "ECG" ∨ ("ECG" : String) = "EOG")
    ∧ ((∃ k, k ≤ 1 ∧ stageSeq ecgRunAll.trace
        = StageTag.detect :: (List.replicate k StageTag.filterS ++ [StageTag.epochsS]))
      ∧ (("ECG" : String) = "ECG" → Op.findECGEvents rawAll.data ∈ ecgRunAll.trace)
      ∧ (("ECG" : String) = "EOG" → Op.findEOGEvents rawAll.data ∈ ecgRunAll.trace)
      ∧ Op.mkEpochs (channelFilterStage (pipelinePicks rawAll []) (some 1)
          (some 35) 2048 1 rawAll.data).1
          (pruneReject rawAll ecg_reject_default).1 ∈ ecgRunAll.trace) :=
  ⟨rfl, Or.inl rfl,
    C2_detection_precedes_filtering "ECG" rawAll (-1 / 5) (2 / 5) 2 2 2 (some 1)
      (some 35) false 2048 1 none (Thresh.finite 2000 13) (Thresh.finite 3000 15)
      (Thresh.finite 50 6) (Thresh.finite 250 6) [] false true 999 [(10, 999)]
      [] [Proj.computed 0] rfl (Or.inl rfl)⟩

/-- Claim C3: in the filtering stage, at most one filter operation runs for
any `(l_freq, h_freq)` pair; when both are unset no filter runs and the
signal is returned unchanged; and when `l_freq` is set while `h_freq` is
unset, the low-pass filter is invoked with its cutoff taken from the `h_freq`
parameter slot (which is `none` there) rather than from the supplied low
bound. -/
theorem C3_filter_dispatch (picks : List String) (filter_length n_jobs : ℕ)
    (s : Sig) (a : ℚ) :
    channelFilterStage picks none none filter_length n_jobs s = (s, [])
    ∧ channelFilterStage picks (some a) none filter_length n_jobs s
        = (Sig.lowPassed picks none filter_length n_jobs s, [Op.lowPassFilter none])
    ∧ Op.lowPassFilter (none : Option ℚ) ≠ Op.lowPassFilter (some a)
    ∧ ∀ l_freq h_freq : Option ℚ,
        ((channelFilterStage picks l_freq h_freq filter_length n_jobs s).2).length ≤ 1 := by
  refine ⟨rfl, rfl, by simp, ?_⟩
  intro l h
  cases l <;> cases h <;> simp [channelFilterStage]

end SSP

namespace SSP

/-- Claim C4: for every preloaded recording, valid mode, and rejection dict
keyed by all four categories, the pipeline's final rejection dict is exactly
the spec's RejectionProfileResolver output — every zero-channel category's
entry removed (silently: the run still returns successfully), every other
entry kept — and that pruned dict is the one recorded in the `Epochs`
construction call, together with the filtered signal. -/
theorem C4_rejection_pruning (mode : String) (raw : Raw) (tmin tmax : ℚ)
    (n_grad n_mag n_eeg : ℕ) (l_freq h_freq : Option ℚ) (average : Bool)
    (filter_length n_jobs : ℕ) (ch_name : Option String) (g m e o : Thresh)
    (bads : List String) (avg_ref no_proj : Bool) (event_id : ℕ)
    (ecg_events eog_events : List Event) (ev_projs : List Proj)
    (hpre : raw.preloaded = true) (hmode : mode = "ECG" ∨ mode = "EOG") :
    (_compute_exg_proj mode raw tmin tmax n_grad n_mag n_eeg l_freq h_freq
        average filter_length n_jobs ch_name ⟨some g, some m, some e, some o⟩
        bads avg_ref no_proj event_id ecg_events eog_events ev_projs).reject
      = rejectionProfileResolverSpec raw ⟨some g, some m, some e, some o⟩
    ∧ (∀ c : Cat, catCount raw c = 0 →
        (rejectionProfileResolverSpec raw ⟨some g, some m, some e, some o⟩).get c
          = none)
    ∧ (∀ c : Cat, catCount raw c ≠ 0 →
        (rejectionProfileResolverSpec raw ⟨some g, some m, some e, some o⟩).get c
          = (⟨some g, some m, some e, some o⟩ : RejectDict).get c)
    ∧ Op.mkEpochs (channelFilterStage (pipelinePicks raw bads) l_freq h_freq
        filter_length n_jobs raw.data).1
        (_compute_exg_proj mode raw tmin tmax n_grad n_mag n_eeg l_freq h_freq
          average filter_length n_jobs ch_name ⟨some g, some m, some e, some o⟩
          bads avg_ref no_proj event_id ecg_events eog_events ev_projs).reject
      ∈ (_compute_exg_proj mode raw tmin tmax n_grad n_mag n_eeg l_freq h_freq
          average filter_length n_jobs ch_name ⟨some g, some m, some e, some o⟩
          bads avg_ref no_proj event_id ecg_events eog_events ev_projs).trace
    ∧ ∃ out, (_compute_exg_proj mode raw tmin tmax n_grad n_mag n_eeg l_freq
        h_freq average filter_length n_jobs ch_name
        ⟨some g, some m, some e, some o⟩ bads avg_ref no_proj event_id
        ecg_events eog_events ev_projs).ret = Except.ok out := by
  rw [run_ok_char mode raw tmin tmax n_grad n_mag n_eeg l_freq h_freq average
    filter_length n_jobs ch_name g m e o bads avg_ref no_proj event_id
    ecg_events eog_events ev_projs hpre hmode]
  refine ⟨pruneReject_all_keys_dict raw g m e o, ?_, ?_, ?_, ⟨_, rfl⟩⟩
  · intro c hc
    cases c <;> simp [rejectionProfileResolverSpec, RejectDict.get, hc]
  · intro c hc
    cases c <;> simp [rejectionProfileResolverSpec, RejectDict.get, hc]
  · simp

/-- Claim C4 witness: the pruning theorem instantiated on `rawNoGrad`, a
recording with no gradiometer channels, and the cardiac wrapper's default
rejection dict. -/
theorem C4_rejection_pruning_witness :
    rawNoGrad.preloaded = true
    ∧ (("ECG" : String) = "ECG" ∨ ("ECG" : String) = "EOG")
    ∧ (ecgRunNoGrad.reject = rejectionProfileResolverSpec rawNoGrad ecg_reject_default
      ∧ (∀ c : Cat, catCount rawNoGrad c = 0 →
          (rejectionProfileResolverSpec rawNoGrad ecg_reject_default).get c = none)
      ∧ (∀ c : Cat, catCount rawNoGrad c ≠ 0 →
          (rejectionProfileResolverSpec rawNoGrad ecg_reject_default).get c
            = ecg_reject_default.get c)
      ∧ Op.mkEpochs (channelFilterStage (pipelinePicks rawNoGrad []) (some 1)
          (some 35) 2048 1 rawNoGrad.data).1 ecgRunNoGrad.reject
          ∈ ecgRunNoGrad.trace
      ∧ ∃ out, ecgRunNoGrad.ret = Except.ok out) :=
  ⟨rfl, Or.inl rfl,
    C4_rejection_pruning "ECG" rawNoGrad (-1 / 5) (2 / 5) 2 2 2 (some 1)
      (some 35) false 2048 1 none (Thresh.finite 2000 13) (Thresh.finite 3000 15)
      (Thresh.finite 50 6) (Thresh.finite 250 6) [] false true 999 [(10, 999)]
      [] [Proj.computed 0] rfl (Or.inl rfl)⟩

/-- Claim C5: with `avg_ref = true` and `no_proj = false` (and the success
preconditions), the returned projection list is exactly the recording's
pre-existing projections, then the average-EEG-reference projection, then
the newly computed artifact projections. -/
theorem C5_assembly_order (mode : String) (raw : Raw) (tmin tmax : ℚ)
    (n_grad n_mag n_eeg : ℕ) (l_freq h_freq : Option ℚ) (average : Bool)
    (filter_length n_jobs : ℕ) (ch_name : Option String) (g m e o : Thresh)
    (bads : List String) (event_id : ℕ) (ecg_events eog_events : List Event)
    (ev_projs : List Proj)
    (hpre : raw.preloaded = true) (hmode : mode = "ECG" ∨ mode = "EOG") :
    ∃ evs, (_compute_exg_proj mode raw tmin tmax n_grad n_mag n_eeg l_freq
      h_freq average filter_length n_jobs ch_name
      ⟨some g, some m, some e, some o⟩ bads true false event_id ecg_events
      eog_events ev_projs).ret
      = Except.ok (raw.projs ++ [make_eeg_average_ref_proj raw] ++ ev_projs, evs) := by
  rw [run_ok_char mode raw tmin tmax n_grad n_mag n_eeg l_freq h_freq average
    filter_length n_jobs ch_name g m e o bads true false event_id ecg_events
    eog_events ev_projs hpre hmode]
  refine ⟨if mode = "ECG" then ecg_events else eog_events, ?_⟩
  simp

/-- Claim C5 witness: the assembly-order theorem on `ecgRunAllIncl`, where
the existing projections are `Proj.orig` markers and the artifact projection
is a `Proj.computed` marker. -/
theorem C5_assembly_order_witness :
    rawAll.preloaded = true
    ∧ (("ECG" : String) = "ECG" ∨ ("ECG" : String) = "EOG")
    ∧ ∃ evs, ecgRunAllIncl.ret
      = Except.ok (rawAll.projs ++ [make_eeg_average_ref_proj rawAll]
          ++ [Proj.computed 0], evs) :=
  ⟨rfl, Or.inl rfl,
    C5_assembly_order "ECG" rawAll (-1 / 5) (2 / 5) 2 2 2 (some 1) (some 35)
      false 2048 1 none (Thresh.finite 2000 13) (Thresh.finite 3000 15)
      (Thresh.finite 50 6) (Thresh.finite 250 6) [] 999 [(10, 999)] []
      [Proj.computed 0] rfl (Or.inl rfl)⟩

end SSP

namespace SSP

/-- Claim C6: the cardiac wrapper invoked with its defaults `no_proj = true`
and `avg_ref = false` returns exactly the newly computed artifact projections
(first and only entries), so no entry of the recording's pre-existing
projection list appears in the output (second conjunct, for pre-existing
projections distinct from the computed ones). -/
theorem C6_ecg_wrapper_excludes_existing (raw : Raw) (tmin tmax : ℚ)
    (n_grad n_mag n_eeg : ℕ) (l_freq h_freq : Option ℚ) (average : Bool)
    (filter_length n_jobs : ℕ) (ch_name : Option String) (g m e o : Thresh)
    (bads : List String) (event_id : ℕ) (ecg_events : List Event)
    (ev_projs : List Proj) (hpre : raw.preloaded = true) :
    (compute_proj_ecg raw tmin tmax n_grad n_mag n_eeg l_freq h_freq average
      filter_length n_jobs ch_name ⟨some g, some m, some e, some o⟩ bads false
      true event_id ecg_events ev_projs).ret = Except.ok (ev_projs, ecg_events)
    ∧ ∀ p ∈ raw.projs, p ∉ ev_projs →
        ∀ pl evs, (compute_proj_ecg raw tmin tmax n_grad n_mag n_eeg l_freq
          h_freq average filter_length n_jobs ch_name
          ⟨some g, some m, some e, some o⟩ bads false true event_id ecg_events
          ev_projs).ret = Except.ok (pl, evs) → p ∉ pl := by
  have hch : (compute_proj_ecg raw tmin tmax n_grad n_mag n_eeg l_freq h_freq
      average filter_length n_jobs ch_name ⟨some g, some m, some e, some o⟩
      bads false true event_id ecg_events ev_projs).ret
      = Except.ok (ev_projs, ecg_events) := by
    unfold compute_proj_ecg
    rw [run_ok_char "ECG" raw tmin tmax n_grad n_mag n_eeg l_freq h_freq
      average filter_length n_jobs ch_name g m e o bads false true event_id
      ecg_events [] ev_projs hpre (Or.inl rfl)]
    simp
  refine ⟨hch, ?_⟩
  intro p _hp hnp pl evs heq
  rw [hch] at heq
  simp only [Except.ok.injEq, Prod.mk.injEq] at heq
  rw [← heq.1]
  exact hnp

/-- Claim C6 witness: the wrapper-default theorem on `ecgWrapperRun`. -/
theorem C6_ecg_wrapper_excludes_existing_witness :
    rawAll.preloaded = true
    ∧ (ecgWrapperRun.ret = Except.ok ([Proj.computed 0], [(10, 999)])
      ∧ ∀ p ∈ rawAll.projs, p ∉ [Proj.computed 0] →
          ∀ pl evs, ecgWrapperRun.ret = Except.ok (pl, evs) → p ∉ pl) :=
  ⟨rfl,
    C6_ecg_wrapper_excludes_existing rawAll (-1 / 5) (2 / 5) 2 2 2 (some 1)
      (some 35) false 2048 1 none (Thresh.finite 2000 13) (Thresh.finite 3000 15)
      (Thresh.finite 50 6) (Thresh.finite 250 6) [] 999 [(10, 999)]
      [Proj.computed 0] rfl⟩

/-- Claim C7: the ocular wrapper's default rejection dict has the unbounded
(infinite) EOG threshold, the cardiac wrapper's default EOG threshold is the
finite literal `250e-6`, and no finite threshold equals the unbounded one. -/
theorem C7_default_eog_thresholds :
    eog_reject_default.eog = some Thresh.inf
    ∧ ecg_reject_default.eog = some (Thresh.finite 250 6)
    ∧ ∀ ma ex : ℕ, Thresh.finite ma ex ≠ Thresh.inf :=
  ⟨rfl, rfl, fun _ _ h => Thresh.noConfusion h⟩

/-- Claim C8: on a recording whose signal is not preloaded, the pipeline
raises the preload `ValueError` immediately: the returned state carries the
recording and the rejection dict unchanged, an empty operation trace (no
filter, detector, deletion or epoch call ran), and the error as result. -/
theorem C8_not_preloaded_fails_before_mutation (mode : String) (raw : Raw)
    (tmin tmax : ℚ) (n_grad n_mag n_eeg : ℕ) (l_freq h_freq : Option ℚ)
    (average : Bool) (filter_length n_jobs : ℕ) (ch_name : Option String)
    (reject : RejectDict) (bads : List String) (avg_ref no_proj : Bool)
    (event_id : ℕ) (ecg_events eog_events : List Event) (ev_projs : List Proj)
    (h : raw.preloaded = false) :
    _compute_exg_proj mode raw tmin tmax n_grad n_mag n_eeg l_freq h_freq
      average filter_length n_jobs ch_name reject bads avg_ref no_proj
      event_id ecg_events eog_events ev_projs
    = { raw := raw, reject := reject, trace := [],
        ret := Except.error Err.valueErrorPreload } := by
  simp [_compute_exg_proj, h]

/-- Claim C8 witness: the preload theorem on `rawNotPreloaded`. -/
theorem C8_not_preloaded_fails_before_mutation_witness :
    rawNotPreloaded.preloaded = false
    ∧ _compute_exg_proj "ECG" rawNotPreloaded 0 0 2 2 2 none none false 2048 1
        none ecg_reject_default [] false true 999 [] [] []
      = { raw := rawNotPreloaded, reject := ecg_reject_default, trace := [],
          ret := Except.error Err.valueErrorPreload } :=
  ⟨rfl, C8_not_preloaded_fails_before_mutation "ECG" rawNotPreloaded 0 0 2 2 2
    none none false 2048 1 none ecg_reject_default [] false true 999 [] [] [] rfl⟩

/-- Claim C9: with `no_proj = false` (and the success preconditions), the
projection list the pipeline returns is the recording's attached projection
list after the run — the local `projs` aliases `raw.info` and the appends
mutate it in place — and with `avg_ref = true` the recording's attached
projection list does not survive the invocation unchanged. -/
theorem C9_projs_alias_mutation (mode : String) (raw : Raw) (tmin tmax : ℚ)
    (n_grad n_mag n_eeg : ℕ) (l_freq h_freq : Option ℚ) (average : Bool)
    (filter_length n_jobs : ℕ) (ch_name : Option String) (g m e o : Thresh)
    (bads : List String) (avg_ref : Bool) (event_id : ℕ)
    (ecg_events eog_events : List Event) (ev_projs : List Proj)
    (hpre : raw.preloaded = true) (hmode : mode = "ECG" ∨ mode = "EOG") :
    (∃ evs, (_compute_exg_proj mode raw tmin tmax n_grad n_mag n_eeg l_freq
        h_freq average filter_length n_jobs ch_name
        ⟨some g, some m, some e, some o⟩ bads avg_ref false event_id ecg_events
        eog_events ev_projs).ret
      = Except.ok ((_compute_exg_proj mode raw tmin tmax n_grad n_mag n_eeg
          l_freq h_freq average filter_length n_jobs ch_name
          ⟨some g, some m, some e, some o⟩ bads avg_ref false event_id
          ecg_events eog_events ev_projs).raw.projs, evs))
    ∧ (avg_ref = true →
        (_compute_exg_proj mode raw tmin tmax n_grad n_mag n_eeg l_freq h_freq
          average filter_length n_jobs ch_name ⟨some g, some m, some e, some o⟩
          bads avg_ref false event_id ecg_events eog_events ev_projs).raw.projs
        ≠ raw.projs) := by
  rw [run_ok_char mode raw tmin tmax n_grad n_mag n_eeg l_freq h_freq average
    filter_length n_jobs ch_name g m e o bads avg_ref false event_id ecg_events
    eog_events ev_projs hpre hmode]
  constructor
  · refine ⟨if mode = "ECG" then ecg_events else eog_events, ?_⟩
    cases avg_ref <;> simp
  · intro ha
    subst ha
    intro h
    have hl := congrArg List.length h
    simp [List.length_append] at hl

/-- Claim C9 witness: the aliasing theorem on `ecgRunAllIncl`
(`no_proj = false`, `avg_ref = true`). -/
theorem C9_projs_alias_mutation_witness :
    rawAll.preloaded = true
    ∧ (("ECG" : String) = "ECG" ∨ ("ECG" : String) = "EOG")
    ∧ ((∃ evs, ecgRunAllIncl.ret = Except.ok (ecgRunAllIncl.raw.projs, evs))
      ∧ (true = true → ecgRunAllIncl.raw.projs ≠ rawAll.projs)) :=
  ⟨rfl, Or.inl rfl,
    C9_projs_alias_mutation "ECG" rawAll (-1 / 5) (2 / 5) 2 2 2 (some 1)
      (some 35) false 2048 1 none (Thresh.finite 2000 13) (Thresh.finite 3000 15)
      (Thresh.finite 50 6) (Thresh.finite 250 6) [] true 999 [(10, 999)] []
      [Proj.computed 0] rfl (Or.inl rfl)⟩

/-- Claim C10: the two-invocation scenario over the shared default rejection
dict of `compute_proj_ecg`, on recordings lacking gradiometer channels: the
first call succeeds and prunes the `grad` key from the shared dict; the
second default-argument call then dies with `KeyError` at the pruning step. -/
theorem C10_shared_default_reject_keyerror :
    (ecgDefaultsTwice rawNoGrad rawNoGrad [(10, 999)] [(10, 999)]
        [Proj.computed 0] [Proj.computed 1]).1.ret
      = Except.ok ([Proj.computed 0], [(10, 999)])
    ∧ (ecgDefaultsTwice rawNoGrad rawNoGrad [(10, 999)] [(10, 999)]
        [Proj.computed 0] [Proj.computed 1]).1.reject.grad = none
    ∧ (ecgDefaultsTwice rawNoGrad rawNoGrad [(10, 999)] [(10, 999)]
        [Proj.computed 0] [Proj.computed 1]).2.ret
      = Except.error (Err.keyError Cat.grad) := by decide

end SSP
